import Mathlib

/-!
Verification development for the VideoApp repository (a two-party video
calling UI that uses a relational backend as a signaling relay).

The repository has two variants of the same component:
  * src/unnamed/part_000                 — the fuller variant, with error
    handling, a loading flag, and a mount/unmount effect (called part000
    below);
  * src/Video-app/src/VideoChat.jsx      — the simpler variant, with no
    guards, no loading flag and no teardown (called simple below).

The embedding models the signaling store (tables calls and candidates), the
browser RTCPeerConnection object as used by this code, the local media
streams, the component state (React refs and useState hooks), the realtime
subscription callbacks, and each user action as a state transformer that
additionally emits a trace of primitive steps (the awaited calls of the
source, in source order), so that ordering properties can be stated about
the trace.  Opaque payloads (session descriptions, candidates) are strings.
Browser-produced values (the offer and answer descriptions, the discovered
candidates) are inputs of the model.  A media stream is modelled as two
tracks (audio and video).
-/

namespace VideoApp

/-- Role tag on a candidates row: which participant discovered it
(column type, values offer / answer). -/
inductive Role
  | offer
  | answer
deriving DecidableEq, Repr

/-- Opaque session-description payload. -/
abbrev Sdp := String

/-- Opaque network-reachability payload. -/
abbrev Cand := String

/-- A row of the calls table: generated id, nullable offer_sdp and
answer_sdp. -/
structure CallRow where
  id : String
  offer_sdp : Option Sdp
  answer_sdp : Option Sdp
deriving DecidableEq, Repr

/-- A row of the candidates table.  The source column named type is a Lean
keyword; it is called ty here. -/
structure CandRow where
  call_id : String
  ty : Role
  candidate : Cand
deriving DecidableEq, Repr

/-- The signaling store.  Row insertion order is list order; counter drives
the generation of fresh call identifiers by the backend. -/
structure Store where
  calls : List CallRow
  cands : List CandRow
  counter : Nat
deriving DecidableEq, Repr

/-- The backend generates call identifiers from a counter, so they are
non-empty and never reused. -/
def genId (n : Nat) : String := "call-" ++ toString n

/-- insert({}) on calls: the backend assigns a fresh id and returns the row. -/
def Store.insertCall (s : Store) : CallRow × Store :=
  let row : CallRow := ⟨genId s.counter, none, none⟩
  (row, { s with calls := s.calls ++ [row], counter := s.counter + 1 })

/-- select().eq(id, cid).single() on calls: data is the row or null. -/
def Store.lookupCall (s : Store) (cid : String) : Option CallRow :=
  s.calls.find? fun r => r.id = cid

/-- update({offer_sdp}).eq(id, cid) on calls. -/
def Store.updateOffer (s : Store) (cid : String) (sdp : Sdp) : Store :=
  { s with calls := s.calls.map fun r =>
      if r.id = cid then { r with offer_sdp := some sdp } else r }

/-- update({answer_sdp}).eq(id, cid) on calls. -/
def Store.updateAnswer (s : Store) (cid : String) (sdp : Sdp) : Store :=
  { s with calls := s.calls.map fun r =>
      if r.id = cid then { r with answer_sdp := some sdp } else r }

/-- insert on candidates: append-only. -/
def Store.insertCand (s : Store) (row : CandRow) : Store :=
  { s with cands := s.cands ++ [row] }

/-- select().eq(call_id, cid).eq(type, role) on candidates: the stored
candidate payloads for one call and role, in insertion order. -/
def Store.candsFor (s : Store) (cid : String) (role : Role) : List Cand :=
  (s.cands.filter fun r => decide (r.call_id = cid ∧ r.ty = role)).map
    CandRow.candidate

/-- One application of a remote candidate to the connection: the payload and
whether a remote description had already been set at the moment
addIceCandidate was called. -/
structure Applied where
  cand : Cand
  hadRemoteDesc : Bool
deriving DecidableEq, Repr

/-- The browser RTCPeerConnection as used by this code: logs of
setLocalDescription / setRemoteDescription calls, the log of addIceCandidate
calls, the number of added local tracks, the installed onicecandidate
publication handler (call id and role it publishes under), and the closed
flag. -/
structure Pc where
  localDescs : List Sdp
  remoteDescs : List Sdp
  applied : List Applied
  tracksAdded : Nat
  iceHandler : Option (String × Role)
  closed : Bool
deriving DecidableEq, Repr

/-- new RTCPeerConnection(...). -/
def Pc.new : Pc := ⟨[], [], [], 0, none, false⟩

def Pc.setLocalDescription (p : Pc) (sdp : Sdp) : Pc :=
  { p with localDescs := p.localDescs ++ [sdp] }

def Pc.setRemoteDescription (p : Pc) (sdp : Sdp) : Pc :=
  { p with remoteDescs := p.remoteDescs ++ [sdp] }

/-- addIceCandidate: the connection records the payload together with
whether a remote description was set at that moment (in the browser, calling
this with no remote description is an error; the model records the hazard). -/
def Pc.addIceCandidate (p : Pc) (c : Cand) : Pc :=
  { p with applied := p.applied ++ [⟨c, !p.remoteDescs.isEmpty⟩] }

def Pc.close (p : Pc) : Pc := { p with closed := true }

/-- A local media stream: its number of tracks and whether its tracks have
been stopped. -/
structure Stream where
  tracks : Nat
  stopped : Bool
deriving DecidableEq, Repr

/-- The component state: the store, every connection object ever allocated
(in allocation order) with pcRef.current as an index into that list, every
acquired local stream with localVideoRef.srcObject as an index, the
generatedId / error / isLoading hook states, and the active realtime
channel subscriptions (calls-update channel: subscribed call id;
candidates-insert channel: call id and the local role captured by the
callback closure). -/
structure Client where
  store : Store
  pcs : List Pc
  current : Option Nat
  streams : List Stream
  currentStream : Option Nat
  generatedId : String
  errorMsg : String
  isLoading : Bool
  subCalls : Option String
  subCands : Option (String × Role)
deriving DecidableEq, Repr

/-- The initial component state over an initial (empty) store. -/
def Client.initial : Client :=
  ⟨⟨[], [], 0⟩, [], none, [], none, "", "", false, none, none⟩

/-- Apply a function to the connection currently referenced by
pcRef.current, if any (models `pcRef.current && ...` / `pcRef.current?.`). -/
def Client.modifyPc (c : Client) (f : Pc → Pc) : Client :=
  match c.current with
  | none => c
  | some i => { c with pcs := c.pcs.set i (f (c.pcs.getD i Pc.new)) }

/-- The list of setRemoteDescription calls made on the current connection. -/
def Client.currentPcRemoteDescs (c : Client) : List Sdp :=
  match c.current with
  | none => []
  | some i => (c.pcs.getD i Pc.new).remoteDescs

/-- The list of addIceCandidate calls made on the current connection. -/
def Client.currentPcApplied (c : Client) : List Applied :=
  match c.current with
  | none => []
  | some i => (c.pcs.getD i Pc.new).applied

/-- Primitive steps emitted by the actions, in source order: each constructor
is one awaited call or hook update of the source. -/
inductive Step
  | setLoading (b : Bool)
  | storeInsertCall (id : String)
  | setGeneratedId (id : String)
  | removeAllChannels
  | subscribeCallsChannel (id : String)
  | subscribeCandChannel (id : String)
  | installIceHandler (id : String) (r : Role)
  | createOffer
  | createAnswer
  | setLocalDesc (s : Sdp)
  | setRemoteDesc (s : Sdp)
  | storeUpdateOffer (id : String) (s : Sdp)
  | storeUpdateAnswer (id : String) (s : Sdp)
  | getUserMedia
  | addTrack
  | addIceCandidate (c : Cand)
  | setError (m : String)
  | pcClose
  | stopTracks
deriving DecidableEq, Repr

def Step.isSetLoading : Step → Bool
  | .setLoading _ => true
  | _ => false

def Step.isSetGeneratedId : Step → Bool
  | .setGeneratedId _ => true
  | _ => false

def Step.isStoreUpdateOffer : Step → Bool
  | .storeUpdateOffer _ _ => true
  | _ => false

def Step.isInstallIceHandler : Step → Bool
  | .installIceHandler _ _ => true
  | _ => false

def Step.isSetLocalDesc : Step → Bool
  | .setLocalDesc _ => true
  | _ => false

def Step.isSetRemoteDesc : Step → Bool
  | .setRemoteDesc _ => true
  | _ => false

def Step.isSubscribeCandChannel : Step → Bool
  | .subscribeCandChannel _ => true
  | _ => false

/-! ## Embedding of src/unnamed/part_000 (the fuller variant) -/

/-- part_000 lines 13-32 (initPeerConnection): allocates a new
RTCPeerConnection and overwrites pcRef.current; the previously referenced
connection, if any, is not closed.  The ontrack and
oniceconnectionstatechange wiring is render-only and not modelled. -/
def part000_initPeerConnection (c : Client) : Client :=
  { c with pcs := c.pcs ++ [Pc.new], current := some c.pcs.length }

/-- part_000 lines 34-44 (startWebcam): acquires a new stream, replaces the
video element srcObject without stopping the tracks of the previously
attached stream, adds the new tracks to the current connection if one exists
(`pcRef.current?.addTrack`), and clears the error message; a media denial is
caught and sets the error message.  `mOk = false` models getUserMedia
rejecting. -/
def part000_startWebcam (mOk : Bool) (c : Client) : Client :=
  if !mOk then
    { c with errorMsg :=
        "Cannot access webcam/mic. Ensure permissions are granted and use HTTPS." }
  else
    let c1 := { c with streams := c.streams ++ [⟨2, false⟩],
                       currentStream := some c.streams.length }
    let c2 := Client.modifyPc c1 fun p => { p with tracksAdded := p.tracksAdded + 2 }
    { c2 with errorMsg := "" }

/-- part_000 lines 46-75 (setupSubscriptions): removes all channels, then for
the offer role subscribes to calls-row UPDATE notifications for this call,
and for both roles subscribes to candidates-row INSERT notifications for
this call (the local role is captured by the callback closure). -/
def part000_setupSubscriptions (cid : String) (ty : Role) (c : Client) :
    Client × List Step :=
  let c0 := { c with subCalls := none, subCands := none }
  if ty = Role.offer then
    ({ c0 with subCalls := some cid, subCands := some (cid, ty) },
     [Step.removeAllChannels, Step.subscribeCallsChannel cid,
      Step.subscribeCandChannel cid])
  else
    ({ c0 with subCands := some (cid, ty) },
     [Step.removeAllChannels, Step.subscribeCandChannel cid])

/-- part_000 lines 54-58: the calls-UPDATE callback: if the updated row has a
non-empty answer_sdp and a connection exists, apply it as the remote
description.  There is no applied-once guard: every delivery with a
non-empty answer_sdp calls setRemoteDescription. -/
def part000_onCallsUpdate (payloadNew : CallRow) (c : Client) : Client :=
  if payloadNew.answer_sdp.isSome && c.current.isSome then
    Client.modifyPc c fun p => Pc.setRemoteDescription p (payloadNew.answer_sdp.getD "")
  else c

/-- part_000 lines 68-72: the candidates-INSERT callback: if the inserted row
carries the opposing role and a connection exists, call addIceCandidate on
it immediately.  There is no remote-description check, no queue, and no
per-row dedup. -/
def part000_onCandInsert (ty : Role) (payloadNew : CandRow) (c : Client) : Client :=
  if payloadNew.ty ≠ ty && c.current.isSome then
    Client.modifyPc c fun p => Pc.addIceCandidate p payloadNew.candidate
  else c

/-- A backend realtime notification. -/
inductive Notif
  | callsUpdate (payloadNew : CallRow)
  | candInsert (payloadNew : CandRow)
deriving DecidableEq, Repr

/-- Delivery of a backend notification to the part_000 client: the callback
runs only while the corresponding channel subscription is active and the
payload matches the subscription filter.  The backend may deliver the same
notification more than once. -/
def part000_deliver (c : Client) (n : Notif) : Client :=
  match n with
  | .callsUpdate payload =>
      match c.subCalls with
      | some cid => if payload.id = cid then part000_onCallsUpdate payload c else c
      | none => c
  | .candInsert payload =>
      match c.subCands with
      | some (cid, ty) =>
          if payload.call_id = cid then part000_onCandInsert ty payload c else c
      | none => c

/-- part_000 lines 79-104, the body of the try of createCall: insert a calls
row, expose the generated id (setGeneratedId), set up subscriptions, install
the candidate-publication handler on pcRef.current (a TypeError when the ref
is null, caught by the catch), create the offer, set it as local description,
persist it, clear the error.  `bOk = false` models the first backend write
rejecting, routed to the catch. -/
def part000_createCallBody (bOk : Bool) (offer : Sdp) (c : Client) :
    Client × List Step :=
  if !bOk then
    ({ c with errorMsg := "Failed to create call. Check your Supabase connection and try again." },
     [Step.setError "Failed to create call. Check your Supabase connection and try again."])
  else
    let p := c.store.insertCall
    let c1 := { c with store := p.2, generatedId := p.1.id }
    let sub := part000_setupSubscriptions p.1.id Role.offer c1
    let pre := [Step.storeInsertCall p.1.id, Step.setGeneratedId p.1.id] ++ sub.2
    if (sub.1).current.isSome then
      let c2 := Client.modifyPc sub.1 fun q => { q with iceHandler := some (p.1.id, Role.offer) }
      let c3 := Client.modifyPc c2 fun q => Pc.setLocalDescription q offer
      let c4 := { c3 with store := Store.updateOffer c3.store p.1.id offer,
                          errorMsg := "" }
      (c4, pre ++ [Step.installIceHandler p.1.id Role.offer, Step.createOffer,
                   Step.setLocalDesc offer, Step.storeUpdateOffer p.1.id offer,
                   Step.setError ""])
    else
      ({ sub.1 with errorMsg := "Failed to create call. Check your Supabase connection and try again." },
       pre ++ [Step.setError "Failed to create call. Check your Supabase connection and try again."])

/-- part_000 lines 77-105 (createCall): setIsLoading(true), the try body, and
the finally that always does setIsLoading(false). -/
def part000_createCall (bOk : Bool) (offer : Sdp) (c : Client) :
    Client × List Step :=
  let r := part000_createCallBody bOk offer { c with isLoading := true }
  ({ r.1 with isLoading := false },
   Step.setLoading true :: (r.2 ++ [Step.setLoading false]))

/-- part_000 lines 109-152, the body of the try of answerCall: require a
non-empty call id; look the call up, and throw Call ID not found when the
row is absent (before any media acquisition); otherwise create a fresh
connection, set up subscriptions, acquire media and add tracks (`mOk =
false` models getUserMedia rejecting, routed to the catch, which shows the
message of the thrown error), install the candidate-publication handler,
apply the stored offer as remote description, drain the candidates already
stored under the offer role and apply each, create the answer, set it as
local description, persist it, clear the error. -/
def part000_answerCallBody (mOk : Bool) (answer : Sdp) (cid : String) (c : Client) :
    Client × List Step :=
  if cid = "" then
    ({ c with errorMsg := "Call ID is required" },
     [Step.setError "Call ID is required"])
  else
    match c.store.lookupCall cid with
    | none =>
        ({ c with errorMsg := "Call ID not found" },
         [Step.setError "Call ID not found"])
    | some row =>
        let c1 := part000_initPeerConnection c
        let sub := part000_setupSubscriptions cid Role.answer c1
        if !mOk then
          ({ sub.1 with errorMsg := "Permission denied" },
           sub.2 ++ [Step.getUserMedia, Step.setError "Permission denied"])
        else
          let c2 := { sub.1 with streams := (sub.1).streams ++ [⟨2, false⟩],
                                 currentStream := some (sub.1).streams.length }
          let c3 := Client.modifyPc c2 fun p => { p with tracksAdded := p.tracksAdded + 2 }
          let c4 := Client.modifyPc c3 fun p => { p with iceHandler := some (cid, Role.answer) }
          let offerSdp := row.offer_sdp.getD ""
          let c5 := Client.modifyPc c4 fun p => Pc.setRemoteDescription p offerSdp
          let drained := Store.candsFor c5.store cid Role.offer
          let c6 := drained.foldl (fun cc cd => Client.modifyPc cc fun p => Pc.addIceCandidate p cd) c5
          let c7 := Client.modifyPc c6 fun p => Pc.setLocalDescription p answer
          let c8 := { c7 with store := Store.updateAnswer c7.store cid answer,
                              errorMsg := "" }
          (c8, sub.2 ++
               [Step.getUserMedia, Step.addTrack,
                Step.installIceHandler cid Role.answer, Step.setRemoteDesc offerSdp] ++
               drained.map Step.addIceCandidate ++
               [Step.createAnswer, Step.setLocalDesc answer,
                Step.storeUpdateAnswer cid answer, Step.setError ""])

/-- part_000 lines 107-153 (answerCall): setIsLoading(true), the try body,
and the finally that always does setIsLoading(false). -/
def part000_answerCall (mOk : Bool) (answer : Sdp) (cid : String) (c : Client) :
    Client × List Step :=
  let r := part000_answerCallBody mOk answer cid { c with isLoading := true }
  ({ r.1 with isLoading := false },
   Step.setLoading true :: (r.2 ++ [Step.setLoading false]))

/-- part_000 lines 155-157 (the mount effect): initPeerConnection then
startWebcam. -/
def part000_mount (mOk : Bool) (c : Client) : Client :=
  part000_startWebcam mOk (part000_initPeerConnection c)

/-- part_000 lines 158-167 (the unmount cleanup): close the current
connection and null the ref; stop every track of the stream currently
attached to the local video element; remove all channels — in that order,
synchronously. -/
def part000_cleanup (c : Client) : Client × List Step :=
  let r1 : Client × List Step :=
    match c.current with
    | some i =>
        ({ c with pcs := c.pcs.set i (Pc.close (c.pcs.getD i Pc.new)), current := none },
         [Step.pcClose])
    | none => (c, [])
  let r2 : Client × List Step :=
    match (r1.1).currentStream with
    | some j =>
        let stoppedStream := { ((r1.1).streams.getD j ⟨0, true⟩) with stopped := true }
        ({ r1.1 with streams := (r1.1).streams.set j stoppedStream },
         r1.2 ++ [Step.stopTracks])
    | none => r1
  ({ r2.1 with subCalls := none, subCands := none },
   r2.2 ++ [Step.removeAllChannels])

/-! ## Embedding of src/Video-app/src/VideoChat.jsx (the simpler variant)

The simpler variant has no try/catch: a thrown error or unhandled rejection
aborts the action mid-way, keeping the state mutations made so far.  Its
actions therefore return a Run: the resulting state, the trace of steps that
did execute, and the uncaught error if one occurred. -/

/-- An uncaught JavaScript error aborting an action of the simpler variant. -/
inductive JsError
  | nullDeref
  | mediaDenied
deriving DecidableEq, Repr

/-- The outcome of one action of the simpler variant. -/
structure Run where
  client : Client
  trace : List Step
  err : Option JsError
deriving DecidableEq, Repr

/-- VideoChat.jsx lines 11-18 (initPeerConnection): allocates a new
RTCPeerConnection and overwrites pcRef.current without closing the previous
one; same modelled effect as the part_000 version. -/
def simple_initPeerConnection (c : Client) : Client :=
  part000_initPeerConnection c

/-- VideoChat.jsx lines 20-25 (startWebcam): always allocates a fresh
connection (overwriting the previous reference without closing it), acquires
a new stream (without stopping the previous one) and adds its tracks.  No
error handling: a media denial is an unhandled rejection. -/
def simple_startWebcam (mOk : Bool) (c : Client) : Run :=
  let c1 := simple_initPeerConnection c
  if !mOk then
    { client := c1, trace := [Step.getUserMedia], err := some JsError.mediaDenied }
  else
    let c2 := { c1 with streams := c1.streams ++ [⟨2, false⟩],
                        currentStream := some c1.streams.length }
    let c3 := Client.modifyPc c2 fun p => { p with tracksAdded := p.tracksAdded + 2 }
    { client := c3, trace := [Step.getUserMedia, Step.addTrack], err := none }

/-- VideoChat.jsx lines 27-61 (createCall): inserts a calls row, exposes the
generated id, then assigns pcRef.current.onicecandidate — a TypeError when
no connection exists (startWebcam not yet run), uncaught since there is no
try/catch; on success it creates the offer, sets it as local description,
persists it, and only then subscribes to calls updates and candidate inserts
(no removal of prior channels, no guard in either callback). -/
def simple_createCall (offer : Sdp) (c : Client) : Run :=
  let p := c.store.insertCall
  let c1 := { c with store := p.2, generatedId := p.1.id }
  match c1.current with
  | none =>
      { client := c1,
        trace := [Step.storeInsertCall p.1.id, Step.setGeneratedId p.1.id],
        err := some JsError.nullDeref }
  | some _ =>
      let c2 := Client.modifyPc c1 fun q => { q with iceHandler := some (p.1.id, Role.offer) }
      let c3 := Client.modifyPc c2 fun q => Pc.setLocalDescription q offer
      let c4 := { c3 with store := Store.updateOffer c3.store p.1.id offer }
      let c5 := { c4 with subCalls := some p.1.id, subCands := some (p.1.id, Role.offer) }
      { client := c5,
        trace := [Step.storeInsertCall p.1.id, Step.setGeneratedId p.1.id,
                  Step.installIceHandler p.1.id Role.offer, Step.createOffer,
                  Step.setLocalDesc offer, Step.storeUpdateOffer p.1.id offer,
                  Step.subscribeCallsChannel p.1.id, Step.subscribeCandChannel p.1.id],
        err := none }

/-- VideoChat.jsx lines 63-90 (answerCall): looks the call up but performs no
existence check; always creates a fresh connection and acquires media; when
the looked-up row was null the later access call.offer_sdp is a TypeError,
uncaught, after media acquisition already happened.  On success it applies
the stored offer, creates and persists the answer, and only then subscribes
to candidate inserts.  There is no drain of already-stored candidates. -/
def simple_answerCall (mOk : Bool) (answer : Sdp) (cid : String) (c : Client) : Run :=
  let found := Store.lookupCall c.store cid
  let c1 := simple_initPeerConnection c
  if !mOk then
    { client := c1, trace := [Step.getUserMedia], err := some JsError.mediaDenied }
  else
    let c2 := { c1 with streams := c1.streams ++ [⟨2, false⟩],
                        currentStream := some c1.streams.length }
    let c3 := Client.modifyPc c2 fun p => { p with tracksAdded := p.tracksAdded + 2 }
    let c4 := Client.modifyPc c3 fun p => { p with iceHandler := some (cid, Role.answer) }
    match found with
    | none =>
        { client := c4,
          trace := [Step.getUserMedia, Step.addTrack,
                    Step.installIceHandler cid Role.answer],
          err := some JsError.nullDeref }
    | some row =>
        let offerSdp := row.offer_sdp.getD ""
        let c5 := Client.modifyPc c4 fun p => Pc.setRemoteDescription p offerSdp
        let c6 := Client.modifyPc c5 fun p => Pc.setLocalDescription p answer
        let c7 := { c6 with store := Store.updateAnswer c6.store cid answer,
                            subCands := some (cid, Role.answer) }
        { client := c7,
          trace := [Step.getUserMedia, Step.addTrack,
                    Step.installIceHandler cid Role.answer, Step.setRemoteDesc offerSdp,
                    Step.createAnswer, Step.setLocalDesc answer,
                    Step.storeUpdateAnswer cid answer, Step.subscribeCandChannel cid],
          err := none }

/-- VideoChat.jsx registers no unmount cleanup (there is no useEffect in the
component): unmounting leaves the connection, the streams and the channel
subscriptions exactly as they were. -/
def simple_unmount (c : Client) : Client := c

/-- VideoChat.jsx lines 57-58 / 86-87: the candidates-INSERT callback of the
simpler variant applies every delivered payload unconditionally (the role
restriction is attempted in the channel filter string, not in the callback,
and there is no dedup and no remote-description check). -/
def simple_onCandInsert (payloadNew : CandRow) (c : Client) : Client :=
  Client.modifyPc c fun p => Pc.addIceCandidate p payloadNew.candidate

/-- Delivery of a candidates-INSERT notification to the simpler variant:
the callback runs only while the candidates channel subscription is active
and the row belongs to the subscribed call. -/
def simple_deliverCand (c : Client) (payloadNew : CandRow) : Client :=
  match c.subCands with
  | some (cid, _) =>
      if payloadNew.call_id = cid then simple_onCandInsert payloadNew c else c
  | none => c

/-! ## The candidate-publication handler (Candidate Relay, both variants)

part_000 lines 84-92 and 121-128, VideoChat.jsx lines 31-39 and 71-75: the
onicecandidate handler installed by createCall / answerCall.  In the browser,
candidate gathering only starts once setLocalDescription has been called,
and both actions in both variants install the handler before calling
setLocalDescription (proved on the traces below), so every candidate event
of the session fires with the handler installed. -/

/-- One firing of the onicecandidate handler: a non-null event inserts a
candidates row tagged with the active call and the local role; the final
null (end-of-gathering) event inserts nothing. -/
def onIceCandidate (cid : String) (role : Role) (ev : Option Cand) (s : Store) : Store :=
  match ev with
  | some cand => s.insertCand ⟨cid, role, cand⟩
  | none => s

/-- Firing the handler over every candidate event the connection reports
during the session, in discovery order. -/
def publishSession (cid : String) (role : Role) (events : List (Option Cand))
    (s : Store) : Store :=
  events.foldl (fun st e => onIceCandidate cid role e st) s

/-! ## Concrete demonstration states -/

/-- A store already holding one call, call-0, whose offer is persisted —
the situation a responder faces. -/
def demoStore : Store := ⟨[⟨"call-0", some "offerSdp", none⟩], [], 1⟩

/-- The part_000 component mounted (connection created, webcam started) over
demoStore. -/
def part000Ready : Client :=
  part000_mount true { Client.initial with store := demoStore }

/-- The part_000 initiator right after a successful createCall from the
mounted state: generated id call-1, subscriptions active, no remote
description yet. -/
def callerClient : Client :=
  (part000_createCall true "offSdp" part000Ready).1

/-- The state part_000 answerCall reaches right after setting up its
subscriptions (lines 114-115) and before applying the stored offer as remote
description (line 131): the awaited getUserMedia sits between the two, so
candidate notifications can be delivered in this state. -/
def part000MidAnswer : Client :=
  (part000_setupSubscriptions "call-0" Role.answer
    (part000_initPeerConnection part000Ready)).1

/-- The simpler variant before any action. -/
def simpleInitial : Client := Client.initial

/-- The simpler variant after Start Webcam succeeded. -/
def simpleStarted : Client := (simple_startWebcam true simpleInitial).client

/-! ## Claims -/

/-- C1: the claim says a candidate notification arriving before the remote
description is set is queued and flushed later, and that answerCall applies
the stored offer before any received candidate.  The code does neither: in
the part_000 answerCall trace the candidates subscription is installed
before setRemoteDescription (with the awaited getUserMedia in between), and
the installed callback, run in exactly that intermediate state, applies a
delivered opposing-role candidate immediately — the application is recorded
with hadRemoteDesc = false, i.e. before the connection has a remote
description, with no queue. -/
theorem c1_candidate_applied_before_remote_description :
    (let tr := (part000_answerCall true "ansSdp" "call-0" part000Ready).2
     tr.findIdx Step.isSubscribeCandChannel < tr.findIdx Step.isSetRemoteDesc) ∧
    Client.currentPcApplied
        (part000_deliver part000MidAnswer
          (Notif.candInsert ⟨"call-0", Role.offer, "earlyCand"⟩)) =
      [⟨"earlyCand", false⟩] := by
  decide

/-- C2: the claim says the answer observed via the calls-row update
subscription is applied as remote description exactly once even if the
notification fires multiple times.  The part_000 callback has no
applied-once guard: delivering the same non-empty-answer update twice to the
initiator makes it call setRemoteDescription twice. -/
theorem c2_answer_applied_twice_on_duplicate_update :
    Client.currentPcRemoteDescs
        (part000_deliver
          (part000_deliver callerClient
            (Notif.callsUpdate ⟨"call-1", some "offSdp", some "ansSdp"⟩))
          (Notif.callsUpdate ⟨"call-1", some "offSdp", some "ansSdp"⟩)) =
      ["ansSdp", "ansSdp"] := by
  decide

/-- C3 (counterexample): in the VideoChat.jsx variant, answerCall with an
identifier that has no calls row performs no existence check: it acquires
media (getUserMedia is in the trace) and then crashes with an uncaught
TypeError on the null row, surfacing no NotFound error (the error state is
untouched). -/
theorem c3_counterexample_simple_variant :
    Step.getUserMedia ∈ (simple_answerCall true "ansSdp" "missing-id" simpleStarted).trace ∧
    (simple_answerCall true "ansSdp" "missing-id" simpleStarted).err =
      some JsError.nullDeref ∧
    (simple_answerCall true "ansSdp" "missing-id" simpleStarted).client.errorMsg = "" := by
  decide

/-- C3 (amended): in the part_000 variant, answerCall with a non-empty
identifier that has no calls row sets the Call ID not found error and its
trace contains no getUserMedia step — media acquisition is never
attempted. -/
theorem c3_amended_part000_not_found (mOk : Bool) (answer cid : String) (c : Client)
    (h1 : ¬ cid = "") (h2 : Store.lookupCall c.store cid = none) :
    (part000_answerCall mOk answer cid c).1.errorMsg = "Call ID not found" ∧
    Step.getUserMedia ∉ (part000_answerCall mOk answer cid c).2 := by
  simp [part000_answerCall, part000_answerCallBody, h1, h2]

theorem c3_amended_part000_not_found_witness :
    (part000_answerCall true "ansSdp" "zzz" Client.initial).1.errorMsg =
      "Call ID not found" ∧
    Step.getUserMedia ∉ (part000_answerCall true "ansSdp" "zzz" Client.initial).2 :=
  c3_amended_part000_not_found true "ansSdp" "zzz" Client.initial
    (by decide) (by rfl)

/-- C4: the claim says the offer field is persisted before the identifier is
exposed to the user.  In both variants the code does the opposite: in the
createCall trace the setGeneratedId step (the id becomes visible and
copyable) comes strictly before the storeUpdateOffer step.  The other half
of the claim holds: the generated identifier is non-empty. -/
theorem c4_id_exposed_before_offer_persisted :
    (let tr := (part000_createCall true "offSdp" part000Ready).2
     tr.findIdx Step.isSetGeneratedId < tr.findIdx Step.isStoreUpdateOffer) ∧
    ¬ (part000_createCall true "offSdp" part000Ready).1.generatedId = "" ∧
    (let tr2 := (simple_createCall "offSdp" simpleStarted).trace
     tr2.findIdx Step.isSetGeneratedId < tr2.findIdx Step.isStoreUpdateOffer) := by
  decide

theorem publishSession_cons (cid : String) (role : Role) (e : Option Cand)
    (es : List (Option Cand)) (s : Store) :
    publishSession cid role (e :: es) s =
      publishSession cid role es (onIceCandidate cid role e s) := rfl

theorem candsFor_insertCand (s : Store) (row : CandRow) (cid : String) (role : Role) :
    Store.candsFor (s.insertCand row) cid role =
      Store.candsFor s cid role ++
        (if row.call_id = cid ∧ row.ty = role then [row.candidate] else []) := by
  by_cases h : row.call_id = cid ∧ row.ty = role <;>
    simp [Store.insertCand, Store.candsFor, List.filter_append, h]

/-- C5: every candidate the connection reports during a session is persisted
by the publication handler as a candidates row tagged with the local call
and role, in discovery order, with none dropped or coalesced (the null
end-of-gathering event adds nothing); and in both part_000 actions the
handler is installed strictly before setLocalDescription — the call that
starts candidate gathering in the browser — so no candidate can be
discovered before the handler exists. -/
theorem c5_candidates_persisted_in_order (cid : String) (role : Role)
    (events : List (Option Cand)) (s : Store) :
    (Store.candsFor (publishSession cid role events s) cid role =
      Store.candsFor s cid role ++ events.filterMap id) ∧
    (let tr := (part000_createCall true "offSdp" part000Ready).2
     tr.findIdx Step.isInstallIceHandler < tr.findIdx Step.isSetLocalDesc) ∧
    (let tr2 := (part000_answerCall true "ansSdp" "call-0" part000Ready).2
     tr2.findIdx Step.isInstallIceHandler < tr2.findIdx Step.isSetLocalDesc) := by
  refine ⟨?_, by decide, by decide⟩
  induction events generalizing s with
  | nil => simp [publishSession]
  | cons e es ih =>
      rw [publishSession_cons]
      cases e with
      | none => simpa [onIceCandidate] using ih (onIceCandidate cid role none s)
      | some cand =>
          rw [ih (onIceCandidate cid role (some cand) s)]
          simp [onIceCandidate, candsFor_insertCand]

/-- C6: the claim says a received opposing-role candidate row is applied at
most once even if its insert notification is delivered twice.  The part_000
callback has no per-row dedup: delivering the same row notification twice to
the initiator (here after its remote description is set, isolating the
dedup question) applies the same candidate twice. -/
theorem c6_candidate_applied_twice_on_duplicate_insert :
    Client.currentPcApplied
        (part000_deliver
          (part000_deliver
            (part000_deliver callerClient
              (Notif.callsUpdate ⟨"call-1", some "offSdp", some "ansSdp"⟩))
            (Notif.candInsert ⟨"call-1", Role.answer, "candX"⟩))
          (Notif.candInsert ⟨"call-1", Role.answer, "candX"⟩)) =
      [⟨"candX", true⟩, ⟨"candX", true⟩] := by
  decide

/-- C7 (counterexample): the VideoChat.jsx variant registers no unmount
cleanup: after createCall and unmount the candidates subscription is still
active, the connection is still open, the stream tracks still run, and a
delivered candidate notification still mutates the connection — a callback
fires after teardown. -/
theorem c7_counterexample_simple_variant :
    (let c := simple_unmount (simple_createCall "offSdp" simpleStarted).client
     c.subCands.isSome = true ∧
     (c.pcs.filter fun p => !p.closed).length = 1 ∧
     (c.streams.filter fun s => !s.stopped).length = 1 ∧
     ¬ Client.currentPcApplied (simple_deliverCand c ⟨"call-0", Role.answer, "lateCand"⟩) =
         Client.currentPcApplied c) := by
  decide

/-- C7 (amended): in the part_000 variant, when the session owns one
connection and one local stream, the unmount cleanup closes the connection,
stops the stream tracks and removes all channels, in that order; afterwards
every connection is closed, every track stopped, no subscription is active,
and delivering any notification changes nothing. -/
theorem c7_amended_part000_teardown (c : Client) (p : Pc) (s : Stream)
    (h1 : c.pcs = [p]) (h2 : c.current = some 0)
    (h3 : c.streams = [s]) (h4 : c.currentStream = some 0) :
    (part000_cleanup c).2 = [Step.pcClose, Step.stopTracks, Step.removeAllChannels] ∧
    ((part000_cleanup c).1.pcs.all fun q => q.closed) = true ∧
    ((part000_cleanup c).1.streams.all fun t => t.stopped) = true ∧
    (part000_cleanup c).1.subCalls = none ∧
    (part000_cleanup c).1.subCands = none ∧
    ∀ n, part000_deliver (part000_cleanup c).1 n = (part000_cleanup c).1 := by
  obtain ⟨st, pcs, cur, strs, curS, gid, emsg, ld, sc, scd⟩ := c
  simp only at h1 h2 h3 h4
  subst h1 h2 h3 h4
  exact ⟨rfl, rfl, rfl, rfl, rfl, fun n => by cases n <;> rfl⟩

theorem c7_amended_part000_teardown_witness :
    (part000_cleanup (part000_mount true Client.initial)).2 =
      [Step.pcClose, Step.stopTracks, Step.removeAllChannels] ∧
    ((part000_cleanup (part000_mount true Client.initial)).1.pcs.all
      fun q => q.closed) = true ∧
    ((part000_cleanup (part000_mount true Client.initial)).1.streams.all
      fun t => t.stopped) = true ∧
    (part000_cleanup (part000_mount true Client.initial)).1.subCalls = none ∧
    (part000_cleanup (part000_mount true Client.initial)).1.subCands = none ∧
    ∀ n, part000_deliver (part000_cleanup (part000_mount true Client.initial)).1 n =
      (part000_cleanup (part000_mount true Client.initial)).1 :=
  c7_amended_part000_teardown (part000_mount true Client.initial)
    ⟨[], [], [], 2, none, false⟩ ⟨2, false⟩ (by decide) (by decide) (by decide) (by decide)

/-- C8: the claim says starting a new session first tears down any prior
connection and stream.  The code never does: pressing Start Webcam twice in
the simpler variant leaves two unclosed connections and two unstopped
streams; in part_000, a second Start Webcam leaves two unstopped streams,
and answerCall allocates a second connection while the one created on mount
stays open. -/
theorem c8_two_live_connections_and_streams :
    (let c := (simple_startWebcam true (simple_startWebcam true simpleInitial).client).client
     (c.pcs.filter fun p => !p.closed).length = 2 ∧
     (c.streams.filter fun s => !s.stopped).length = 2) ∧
    (let d := part000_startWebcam true part000Ready
     (d.streams.filter fun s => !s.stopped).length = 2) ∧
    (let e := (part000_answerCall true "ansSdp" "call-0" part000Ready).1
     (e.pcs.filter fun p => !p.closed).length = 2) := by
  decide

/-- C9 (counterexample): the VideoChat.jsx variant has no loading state at
all: a createCall invocation emits no setLoading step and leaves the loading
flag false throughout — no loading indicator is set for the in-flight
action. -/
theorem c9_counterexample_simple_variant :
    ((simple_createCall "offSdp" simpleStarted).trace.all
      fun st => !Step.isSetLoading st) = true ∧
    (simple_createCall "offSdp" simpleStarted).client.isLoading = false := by
  decide

/-- C9 (amended): in the part_000 variant, every createCall and answerCall
invocation sets the loading flag first and clears it last, on every
completion path, success or failure (the try/finally structure): the trace
begins with setLoading true, ends with setLoading false, and the final state
has the flag cleared, for all inputs and branches. -/
theorem c9_amended_part000_loading (bOk mOk : Bool) (offer answer cid : String)
    (c : Client) :
    (part000_createCall bOk offer c).2.head? = some (Step.setLoading true) ∧
    (part000_createCall bOk offer c).2.getLast? = some (Step.setLoading false) ∧
    (part000_createCall bOk offer c).1.isLoading = false ∧
    (part000_answerCall mOk answer cid c).2.head? = some (Step.setLoading true) ∧
    (part000_answerCall mOk answer cid c).2.getLast? = some (Step.setLoading false) ∧
    (part000_answerCall mOk answer cid c).1.isLoading = false := by
  refine ⟨rfl, ?_, rfl, rfl, ?_, rfl⟩ <;>
    simp only [part000_createCall, part000_answerCall] <;>
    rw [← List.cons_append, List.getLast?_concat]

/-- C10: in the VideoChat.jsx variant, createCall invoked from the initial
state (no prior startWebcam) dereferences the null connection reference at
the onicecandidate assignment and aborts with an uncaught null-dereference
error — no connection is created and no user-visible error is reported —
while the part_000 variant discharges the precondition in its mount effect:
after mounting, pcRef.current is set and createCall runs to completion,
installing the handler and reporting no error. -/
theorem c10_simple_createCall_null_deref :
    (simple_createCall "offSdp" simpleInitial).err = some JsError.nullDeref ∧
    (simple_createCall "offSdp" simpleInitial).client.pcs = [] ∧
    (simple_createCall "offSdp" simpleInitial).client.errorMsg = "" ∧
    (part000_mount true Client.initial).current = some 0 ∧
    (part000_createCall true "offSdp" (part000_mount true Client.initial)).1.errorMsg = "" ∧
    Step.installIceHandler "call-0" Role.offer ∈
      (part000_createCall true "offSdp" (part000_mount true Client.initial)).2 := by
  decide

end VideoApp
